import Mathlib

/-!
Verification of the session-lifecycle controller of
`src/audioGuestBook.py` (rotary-phone audio guestbook).

The controller is shallowly embedded as a small-step transition system:

* every Python handler (`off_hook`, `on_hook`, `time_exceeded`,
  `pressed_record_greeting`, `released_record_greeting`) and every worker
  body (`play_greeting_and_beep`, `beep_and_record_greeting`) is a list of
  atomic actions (`PAct`), grouped into `if self.continue_playback:` guarded
  blocks (`Blk`) exactly as in the source;
* the process state (`Conf`) carries the attributes of the `AudioGuestBook`
  object (`continue_playback`, the `timer` attribute, the `greeting_thread`
  attribute, the thread pool) together with the state of the external
  `AudioInterface` and the log of Audio Service calls (`trace`);
* a scheduler (`SchedItem`, `stepItem`, `runSched`) interleaves the live
  threads at statement granularity and delivers the debounced GPIO events
  (`engagedHook` = hook `when_pressed`, `releasedHook` = `when_released`,
  likewise for the record-greeting button), the deadline-timer expiry and
  natural end of playback.

The `AudioInterface` class itself lives in `audioInterface.py`, which is not
part of the sources under verification; its behaviour (blocking
`play_audio`, non-blocking `start_recording`, `stop_recording` /
`stop_playback` being safe no-ops when idle) is modelled from the spec, §6.
-/

/-- The three sound files the controller plays (config keys `greeting`,
`beep`, `time_exceeded`). -/
inductive Sound
  | greeting
  | beep
  | timeExceeded
deriving DecidableEq

/-- Output paths used by `start_recording`: `play_greeting_and_beep` records
to a fresh timestamped file under `recordings_path` (line 119-121);
`beep_and_record_greeting` records over the configured greeting file
(line 200-202). -/
inductive PathKind
  | recordingsTimestamped
  | greetingFile
deriving DecidableEq

/-- Observable events: the Audio Service calls made by the controller, plus
the natural completion of a playback (`playDone`). -/
inductive Evt
  | playCall (s : Sound)
  | playDone (s : Sound)
  | startRecCall (p : PathKind)
  | stopRecCall
  | stopPlaybackCall
deriving DecidableEq

/-- Modelled from the spec: state of the external `AudioInterface`
(`audioInterface.py` is not among the sources).  Per §6, `play_audio` blocks
while `playing` is set, `start_recording` begins capture immediately, and
the stop primitives are safe no-ops when nothing is playing/recording. -/
structure AudioState where
  playing : Option Sound
  recording : Option PathKind
deriving DecidableEq

/-- State of the `self.timer` attribute (a `threading.Timer`). -/
inductive TimerSt
  | armed
  | cancelled
  | fired
deriving DecidableEq

/-- Atomic statements of the Python handlers and workers. -/
inductive PAct
  | setFlag (b : Bool)        -- `self.continue_playback = b`
  | copyFlagToAudio           -- `self.audio_interface.continue_playback = self.continue_playback` (line 108/187)
  | playStart (s : Sound)     -- entry into `self.audio_interface.play_audio(...)`
  | playWait                  -- the blocking tail of `play_audio` (returns once playback ends)
  | startRec (p : PathKind)   -- `self.audio_interface.start_recording(path)` (line 94)
  | armTimer                  -- `self.timer = threading.Timer(...); self.timer.start()` (lines 98-101)
  | callStopRec               -- `self.audio_interface.stop_recording()`
  | cancelTimerIfAttr         -- `if hasattr(self, "timer"): self.timer.cancel()` (lines 212-213)
  | stopPlaybackIfAlive       -- `if hasattr(self, "greeting_thread") and self.greeting_thread.is_alive(): self.audio_interface.stop_playback()` (lines 214-216)
  | spawnNormalWorker         -- `self.greeting_thread = Thread(target=self.play_greeting_and_beep); ...start()` (lines 87-88)
  | spawnGreetingWorker       -- `self.greeting_thread = Thread(target=self.beep_and_record_greeting); ...start()` (lines 172-173)
deriving DecidableEq

/-- A maximal run of statements guarded by a single
`if self.continue_playback:` test (`guarded = true`), or unguarded code
(`guarded = false`).  The flag is read once, on entry to the block. -/
structure Blk where
  guarded : Bool
  acts : List PAct
deriving DecidableEq

/-- A thread: the statements remaining in the block it has entered, then the
blocks still ahead of it.  A thread with both lists empty has returned
(`is_alive()` is false). -/
structure Thread where
  cur : List PAct
  blocks : List Blk
deriving DecidableEq

/-- Global configuration: the `AudioGuestBook` attributes, the audio
interface, the thread pool (threads are addressed by their index) and the
log of observable events. -/
structure Conf where
  flag : Bool                -- `self.continue_playback`
  audioFlag : Bool           -- `self.audio_interface.continue_playback`
  audio : AudioState
  timer : Option TimerSt     -- `none` = no `timer` attribute yet
  threadRef : Option Nat     -- `self.greeting_thread` (none = attribute absent)
  threads : List Thread
  greetingButton : Bool      -- whether `setup_record_greeting` registered the button
  trace : List Evt
deriving DecidableEq

/-- Body of `play_greeting_and_beep` (lines 103-131): copy the flag into the
audio interface, play the greeting (unguarded), then
`if self.continue_playback:` start recording to a timestamped file and arm
the deadline timer, then `if self.continue_playback:` play the beep. -/
def normalWorkerBlocks : List Blk :=
  [⟨false, [PAct.copyFlagToAudio, PAct.playStart Sound.greeting, PAct.playWait]⟩,
   ⟨true, [PAct.startRec PathKind.recordingsTimestamped, PAct.armTimer]⟩,
   ⟨true, [PAct.playStart Sound.beep, PAct.playWait]⟩]

/-- Body of `beep_and_record_greeting` (lines 182-204): copy the flag, then
`if self.continue_playback:` play the beep, then
`if self.continue_playback:` start recording over the greeting file and arm
the deadline timer. -/
def greetingWorkerBlocks : List Blk :=
  [⟨false, [PAct.copyFlagToAudio]⟩,
   ⟨true, [PAct.playStart Sound.beep, PAct.playWait]⟩,
   ⟨true, [PAct.startRec PathKind.greetingFile, PAct.armTimer]⟩]

/-- Body of `off_hook` (lines 79-88): set `continue_playback = True`, then
create and start the worker thread. -/
def offHookThread : Thread :=
  ⟨[PAct.setFlag true, PAct.spawnNormalWorker], []⟩

/-- Body of `pressed_record_greeting` (lines 164-173). -/
def pressedRecordGreetingThread : Thread :=
  ⟨[PAct.setFlag true, PAct.spawnGreetingWorker], []⟩

/-- Body of `stop_recording_and_playback` (lines 206-216). -/
def stopRecordingAndPlaybackActs : List PAct :=
  [PAct.setFlag false, PAct.callStopRec, PAct.cancelTimerIfAttr,
   PAct.stopPlaybackIfAlive]

/-- Body of `on_hook` (lines 133-138): it just calls
`stop_recording_and_playback`. -/
def onHookThread : Thread :=
  ⟨stopRecordingAndPlaybackActs, []⟩

/-- Body of `released_record_greeting` (lines 175-180): it just calls
`stop_recording_and_playback`. -/
def releasedRecordGreetingThread : Thread :=
  ⟨stopRecordingAndPlaybackActs, []⟩

/-- Statements of `time_exceeded` (lines 140-148): stop the recording, then
play the time-exceeded notice (blocking). -/
def timeExceededActs : List PAct :=
  [PAct.callStopRec, PAct.playStart Sound.timeExceeded, PAct.playWait]

/-- The thread the `threading.Timer` runs `time_exceeded` on. -/
def timeExceededThread : Thread :=
  ⟨timeExceededActs, []⟩

/-- Whether a thread's `is_alive()` is true (it has statements left). -/
def threadAlive (t : Thread) : Bool :=
  !(t.cur.isEmpty && t.blocks.isEmpty)

/-- Look up a thread reference in the pool and test `is_alive()`. -/
def aliveRef (r : Option Nat) (ts : List Thread) : Bool :=
  match r with
  | none => false
  | some i =>
    match ts.get? i with
    | none => false
    | some t => threadAlive t

/-- `hasattr(self, "greeting_thread") and self.greeting_thread.is_alive()`. -/
def refAlive (c : Conf) : Bool :=
  aliveRef c.threadRef c.threads

/-- Replace thread `tid` in the pool. -/
def setThread (c : Conf) (tid : Nat) (t : Thread) : Conf :=
  { c with threads := c.threads.set tid t }

/-- Effect of one atomic statement on the global configuration. -/
def execAct (c : Conf) (a : PAct) : Conf :=
  match a with
  | PAct.setFlag b => { c with flag := b }
  | PAct.copyFlagToAudio => { c with audioFlag := c.flag }
  | PAct.playStart s =>
      { c with audio := { c.audio with playing := some s },
               trace := c.trace ++ [Evt.playCall s] }
  | PAct.playWait => c
  | PAct.startRec p =>
      { c with audio := { c.audio with recording := some p },
               trace := c.trace ++ [Evt.startRecCall p] }
  | PAct.armTimer => { c with timer := some TimerSt.armed }
  | PAct.callStopRec =>
      { c with audio := { c.audio with recording := none },
               trace := c.trace ++ [Evt.stopRecCall] }
  | PAct.cancelTimerIfAttr =>
      match c.timer with
      | some TimerSt.armed => { c with timer := some TimerSt.cancelled }
      | _ => c
  | PAct.stopPlaybackIfAlive =>
      if refAlive c then
        { c with audio := { c.audio with playing := none },
                 trace := c.trace ++ [Evt.stopPlaybackCall] }
      else c
  | PAct.spawnNormalWorker =>
      { c with threadRef := some c.threads.length,
               threads := c.threads ++ [⟨[], normalWorkerBlocks⟩] }
  | PAct.spawnGreetingWorker =>
      { c with threadRef := some c.threads.length,
               threads := c.threads ++ [⟨[], greetingWorkerBlocks⟩] }

/-- A statement on which a thread cannot advance: the blocking tail of
`play_audio` while something is still playing. -/
def blockedOn (c : Conf) (a : PAct) : Bool :=
  (a = PAct.playWait) && c.audio.playing.isSome

/-- Advance a found thread by one statement: execute the next statement of
the entered block, or read the flag and enter/skip the next block. -/
def stepT (c : Conf) (tid : Nat) (t : Thread) : Conf :=
  match t.cur with
  | a :: rest =>
    if blockedOn c a then c
    else setThread (execAct c a) tid { t with cur := rest }
  | [] =>
    match t.blocks with
    | [] => c
    | b :: bs =>
      if b.guarded && !c.flag then setThread c tid { t with blocks := bs }
      else setThread c tid { t with cur := b.acts, blocks := bs }

/-- Advance thread `tid` by one statement (no-op on an invalid index). -/
def stepThread (c : Conf) (tid : Nat) : Conf :=
  match c.threads.get? tid with
  | none => c
  | some t => stepT c tid t

/-- Scheduler items: advance a thread, deliver a debounced GPIO event,
fire the armed deadline timer, or let the current playback finish. -/
inductive SchedItem
  | run (tid : Nat)
  | engagedHook
  | releasedHook
  | engagedGreeting
  | releasedGreeting
  | timerFire
  | audioComplete
deriving DecidableEq

/-- One scheduler step. -/
def stepItem (c : Conf) : SchedItem → Conf
  | SchedItem.run tid => stepThread c tid
  | SchedItem.engagedHook =>
      { c with threads := c.threads ++ [offHookThread] }
  | SchedItem.releasedHook =>
      { c with threads := c.threads ++ [onHookThread] }
  | SchedItem.engagedGreeting =>
      if c.greetingButton then
        { c with threads := c.threads ++ [pressedRecordGreetingThread] }
      else c
  | SchedItem.releasedGreeting =>
      if c.greetingButton then
        { c with threads := c.threads ++ [releasedRecordGreetingThread] }
      else c
  | SchedItem.timerFire =>
      match c.timer with
      | some TimerSt.armed =>
          { c with timer := some TimerSt.fired,
                   threads := c.threads ++ [timeExceededThread] }
      | _ => c
  | SchedItem.audioComplete =>
      match c.audio.playing with
      | some s =>
          { c with audio := { c.audio with playing := none },
                   trace := c.trace ++ [Evt.playDone s] }
      | none => c

/-- Run a whole schedule. -/
def runSched (c : Conf) (sched : List SchedItem) : Conf :=
  List.foldl stepItem c sched

/-- State right after `AudioGuestBook.__init__` (lines 32-52): no session,
`continue_playback = False` (line 52), no `timer` or `greeting_thread`
attribute, and the record-greeting button registered iff
`record_greeting_gpio != 0` (lines 154-157). -/
def initConf (record_greeting_gpio : Nat) : Conf :=
  { flag := false
    audioFlag := false
    audio := ⟨none, none⟩
    timer := none
    threadRef := none
    threads := []
    greetingButton := record_greeting_gpio != 0
    trace := [] }

/-! ## Generic lemmas about the transition system -/

/-- A statement-level predicate holding of every statement a thread may
still execute. -/
def okThread (P : PAct → Bool) (t : Thread) : Bool :=
  t.cur.all P && t.blocks.all (fun b => b.acts.all P)

/-- `okThread` for every thread in the pool. -/
def okConf (P : PAct → Bool) (c : Conf) : Bool :=
  c.threads.all (okThread P)

/-- Running a thread index past the end of the pool does nothing. -/
lemma stepThread_oob {c : Conf} {tid : Nat} (h : c.threads.length ≤ tid) :
    stepThread c tid = c := by
  unfold stepThread
  rw [List.get?_eq_none.mpr h]

lemma stepThread_of_get {c : Conf} {tid : Nat} {t : Thread}
    (h : c.threads.get? tid = some t) : stepThread c tid = stepT c tid t := by
  unfold stepThread
  rw [h]

/-- Exhaustive description of one thread step: it is a no-op, or it executes
the head statement of the entered block, or it performs a block-level move
(skip or entry) that only rearranges the thread's own program. -/
lemma stepThread_cases (c : Conf) (tid : Nat) :
    stepThread c tid = c ∨
    (∃ t a rest, c.threads.get? tid = some t ∧ t.cur = a :: rest ∧
        stepThread c tid = setThread (execAct c a) tid { t with cur := rest }) ∨
    (∃ t b bs, c.threads.get? tid = some t ∧ t.cur = [] ∧ t.blocks = b :: bs ∧
        (stepThread c tid = setThread c tid { t with blocks := bs } ∨
         stepThread c tid =
           setThread c tid { t with cur := b.acts, blocks := bs })) := by
  rcases h : c.threads.get? tid with _ | t
  · left
    unfold stepThread
    rw [h]
  · have hs := stepThread_of_get h
    obtain ⟨cur, blocks⟩ := t
    rcases cur with _ | ⟨a, rest⟩
    · rcases blocks with _ | ⟨b, bs⟩
      · left
        rw [hs]
        rfl
      · right; right
        refine ⟨⟨[], b :: bs⟩, b, bs, rfl, rfl, rfl, ?_⟩
        by_cases hg : (b.guarded && !c.flag) = true
        · left
          rw [hs]
          simp only [stepT, hg, if_true]
        · right
          rw [hs]
          simp only [stepT, hg, if_false, Bool.false_eq_true]
    · by_cases hbl : blockedOn c a = true
      · left
        rw [hs]
        simp only [stepT, hbl, if_true]
      · right; left
        refine ⟨⟨a :: rest, blocks⟩, a, rest, rfl, rfl, ?_⟩
        rw [hs]
        simp only [stepT, hbl, if_false, Bool.false_eq_true]

lemma okThread_cur_head {P : PAct → Bool} {t : Thread} {a : PAct}
    {rest : List PAct} (h : okThread P t = true) (hc : t.cur = a :: rest) :
    P a = true ∧ okThread P { t with cur := rest } = true := by
  simp only [okThread, hc, List.all_cons, Bool.and_eq_true] at h ⊢
  exact ⟨h.1.1, h.1.2, h.2⟩

lemma okThread_skip {P : PAct → Bool} {t : Thread} {b : Blk} {bs : List Blk}
    (h : okThread P t = true) (hb : t.blocks = b :: bs) :
    okThread P { t with blocks := bs } = true := by
  simp only [okThread, hb, List.all_cons, Bool.and_eq_true] at h ⊢
  exact ⟨h.1, h.2.2⟩

lemma okThread_enter {P : PAct → Bool} {t : Thread} {b : Blk} {bs : List Blk}
    (h : okThread P t = true) (hb : t.blocks = b :: bs) :
    okThread P { t with cur := b.acts, blocks := bs } = true := by
  simp only [okThread, hb, List.all_cons, Bool.and_eq_true] at h ⊢
  exact ⟨h.2.1, h.2.2⟩

lemma okConf_get {P : PAct → Bool} {c : Conf} {tid : Nat} {t : Thread}
    (h : okConf P c = true) (hg : c.threads.get? tid = some t) :
    okThread P t = true :=
  List.all_eq_true.mp h t (List.get?_mem hg)

lemma okConf_setThread {P : PAct → Bool} {c : Conf} {tid : Nat} {t : Thread}
    (h : okConf P c = true) (ht : okThread P t = true) :
    okConf P (setThread c tid t) = true := by
  simp only [okConf, setThread, List.all_eq_true] at h ⊢
  intro x hx
  rcases List.mem_or_eq_of_mem_set hx with h1 | h2
  · exact h x h1
  · rw [h2]; exact ht

/-- `execAct` preserves `okConf P` when the executed statement satisfies `P`
and `P` is closed under the worker bodies it may spawn. -/
lemma okConf_execAct {P : PAct → Bool} {c : Conf} {a : PAct}
    (hn : P PAct.spawnNormalWorker = true →
          okThread P ⟨[], normalWorkerBlocks⟩ = true)
    (hg : P PAct.spawnGreetingWorker = true →
          okThread P ⟨[], greetingWorkerBlocks⟩ = true)
    (ha : P a = true) (h : okConf P c = true) :
    okConf P (execAct c a) = true := by
  cases a with
  | setFlag b => exact h
  | copyFlagToAudio => exact h
  | playStart s => exact h
  | playWait => exact h
  | startRec p => exact h
  | armTimer => exact h
  | callStopRec => exact h
  | cancelTimerIfAttr =>
      unfold execAct
      rcases c.timer with _ | st
      · exact h
      · cases st <;> exact h
  | stopPlaybackIfAlive =>
      unfold execAct
      by_cases hr : refAlive c = true <;> simp [hr] <;> exact h
  | spawnNormalWorker =>
      simp only [execAct, okConf, List.all_append, List.all_cons, List.all_nil,
        Bool.and_eq_true, Bool.and_true] at h ⊢
      exact ⟨h, hn ha⟩
  | spawnGreetingWorker =>
      simp only [execAct, okConf, List.all_append, List.all_cons, List.all_nil,
        Bool.and_eq_true, Bool.and_true] at h ⊢
      exact ⟨h, hg ha⟩

lemma okConf_stepThread {P : PAct → Bool} {c : Conf} {tid : Nat}
    (hn : P PAct.spawnNormalWorker = true →
          okThread P ⟨[], normalWorkerBlocks⟩ = true)
    (hg : P PAct.spawnGreetingWorker = true →
          okThread P ⟨[], greetingWorkerBlocks⟩ = true)
    (h : okConf P c = true) : okConf P (stepThread c tid) = true := by
  rcases stepThread_cases c tid with he | ⟨t, a, rest, hget, hcur, he⟩ |
    ⟨t, b, bs, hget, hcur, hblocks, he | he⟩ <;> rw [he]
  · exact h
  · obtain ⟨hPa, hok2⟩ := okThread_cur_head (okConf_get h hget) hcur
    exact okConf_setThread (okConf_execAct hn hg hPa h) hok2
  · exact okConf_setThread h (okThread_skip (okConf_get h hget) hblocks)
  · exact okConf_setThread h (okThread_enter (okConf_get h hget) hblocks)

/-- Invariant preservation along a schedule. -/
lemma runSched_inv {Q : Conf → Prop} {A : SchedItem → Prop}
    (hstep : ∀ c it, Q c → A it → Q (stepItem c it)) :
    ∀ (sched : List SchedItem) (c : Conf), Q c → (∀ it ∈ sched, A it) →
      Q (runSched c sched) := by
  intro sched
  induction sched with
  | nil => intro c hQ _; exact hQ
  | cons it rest ih =>
      intro c hQ hA
      exact ih _ (hstep c it hQ (hA it (by simp)))
        (fun x hx => hA x (by simp [hx]))

/-! ## Cancel-flag machinery (claim C6) -/

/-- Statements other than `self.continue_playback = True`.  Only `off_hook`
(line 85) and `pressed_record_greeting` (line 170) contain that
assignment. -/
def P6 : PAct → Bool := fun a => a != PAct.setFlag true

lemma flag_execAct {c : Conf} {a : PAct} (ha : P6 a = true)
    (hf : c.flag = false) : (execAct c a).flag = false := by
  cases a with
  | setFlag b =>
      cases b
      · rfl
      · simp [P6] at ha
  | cancelTimerIfAttr =>
      unfold execAct
      rcases c.timer with _ | st
      · exact hf
      · cases st <;> exact hf
  | stopPlaybackIfAlive =>
      unfold execAct
      by_cases hr : refAlive c = true <;> simp [hr, hf]
  | copyFlagToAudio => exact hf
  | playStart s => exact hf
  | playWait => exact hf
  | startRec p => exact hf
  | armTimer => exact hf
  | callStopRec => exact hf
  | spawnNormalWorker => exact hf
  | spawnGreetingWorker => exact hf

lemma flag_stepThread {c : Conf} {tid : Nat} (hok : okConf P6 c = true)
    (hf : c.flag = false) : (stepThread c tid).flag = false := by
  rcases stepThread_cases c tid with he | ⟨t, a, rest, hget, hcur, he⟩ |
    ⟨t, b, bs, hget, hcur, hblocks, he | he⟩ <;> rw [he]
  · exact hf
  · exact flag_execAct (okThread_cur_head (okConf_get hok hget) hcur).1 hf
  · exact hf
  · exact hf

/-- Invariant for C6: the cancel request is in force (flag cleared) and no
live thread still has a pending `continue_playback = True` assignment. -/
def Inv6 (c : Conf) : Prop := c.flag = false ∧ okConf P6 c = true

lemma inv6_stepItem {c : Conf} {it : SchedItem} (h : Inv6 c)
    (h1 : it ≠ SchedItem.engagedHook) (h2 : it ≠ SchedItem.engagedGreeting) :
    Inv6 (stepItem c it) := by
  obtain ⟨hf, hok⟩ := h
  cases it with
  | run tid =>
      exact ⟨flag_stepThread hok hf,
        okConf_stepThread (fun _ => by decide) (fun _ => by decide) hok⟩
  | engagedHook => exact absurd rfl h1
  | engagedGreeting => exact absurd rfl h2
  | releasedHook =>
      refine ⟨hf, ?_⟩
      show (c.threads ++ [onHookThread]).all (okThread P6) = true
      rw [List.all_append]
      simp only [Bool.and_eq_true]
      exact ⟨hok, by decide⟩
  | releasedGreeting =>
      refine ⟨?_, ?_⟩ <;> simp only [stepItem]
      · split
        · exact hf
        · exact hf
      · split
        · show (c.threads ++ [releasedRecordGreetingThread]).all
              (okThread P6) = true
          rw [List.all_append]
          simp only [Bool.and_eq_true]
          exact ⟨hok, by decide⟩
        · exact hok
  | timerFire =>
      rcases ht : c.timer with _ | st
      · refine ⟨?_, ?_⟩ <;> simp only [stepItem, ht]
        · exact hf
        · exact hok
      · cases st with
        | armed =>
            refine ⟨?_, ?_⟩ <;> simp only [stepItem, ht]
            · exact hf
            · show (c.threads ++ [timeExceededThread]).all (okThread P6) = true
              rw [List.all_append]
              simp only [Bool.and_eq_true]
              exact ⟨hok, by decide⟩
        | cancelled =>
            refine ⟨?_, ?_⟩ <;> simp only [stepItem, ht]
            · exact hf
            · exact hok
        | fired =>
            refine ⟨?_, ?_⟩ <;> simp only [stepItem, ht]
            · exact hf
            · exact hok
  | audioComplete =>
      rcases hp : c.audio.playing with _ | s <;>
        refine ⟨?_, ?_⟩ <;> simp only [stepItem, hp]
      · exact hf
      · exact hok
      · exact hf
      · exact hok

/-! ## Greeting-trigger machinery (claim C9) -/

/-- Statements that neither spawn the greeting-record worker nor record over
the greeting file. -/
def P9 : PAct → Bool := fun a =>
  (a != PAct.spawnGreetingWorker) && (a != PAct.startRec PathKind.greetingFile)

/-- Events other than a `start_recording` call aimed at the greeting file. -/
def cleanEvt : Evt → Bool := fun e => e != Evt.startRecCall PathKind.greetingFile

/-- Invariant for C9 with `record_greeting_gpio = 0`: the greeting button was
never registered, no live thread can spawn the greeting worker or record over
the greeting file, and no such recording was ever started. -/
def Inv9 (c : Conf) : Prop :=
  c.greetingButton = false ∧ okConf P9 c = true ∧ c.trace.all cleanEvt = true

lemma gb_execAct (c : Conf) (a : PAct) :
    (execAct c a).greetingButton = c.greetingButton := by
  cases a with
  | cancelTimerIfAttr =>
      unfold execAct
      rcases c.timer with _ | st
      · rfl
      · cases st <;> rfl
  | stopPlaybackIfAlive =>
      unfold execAct
      by_cases hr : refAlive c = true <;> simp [hr]
  | setFlag b => rfl
  | copyFlagToAudio => rfl
  | playStart s => rfl
  | playWait => rfl
  | startRec p => rfl
  | armTimer => rfl
  | callStopRec => rfl
  | spawnNormalWorker => rfl
  | spawnGreetingWorker => rfl

lemma trace_execAct {c : Conf} {a : PAct} (ha : P9 a = true)
    (ht : c.trace.all cleanEvt = true) :
    (execAct c a).trace.all cleanEvt = true := by
  cases a with
  | playStart s => simp [execAct, List.all_append, ht, cleanEvt]
  | startRec p =>
      cases p
      · simp [execAct, List.all_append, ht, cleanEvt]
      · simp [P9] at ha
  | callStopRec => simp [execAct, List.all_append, ht, cleanEvt]
  | cancelTimerIfAttr =>
      unfold execAct
      rcases c.timer with _ | st
      · exact ht
      · cases st <;> exact ht
  | stopPlaybackIfAlive =>
      unfold execAct
      by_cases hr : refAlive c = true <;> simp [hr, List.all_append, ht, cleanEvt]
  | setFlag b => exact ht
  | copyFlagToAudio => exact ht
  | playWait => exact ht
  | armTimer => exact ht
  | spawnNormalWorker => exact ht
  | spawnGreetingWorker => exact ht

lemma inv9_stepThread {c : Conf} {tid : Nat} (h : Inv9 c) :
    Inv9 (stepThread c tid) := by
  obtain ⟨hgb, hok, htr⟩ := h
  rcases stepThread_cases c tid with he | ⟨t, a, rest, hget, hcur, he⟩ |
    ⟨t, b, bs, hget, hcur, hblocks, he | he⟩ <;> rw [he]
  · exact ⟨hgb, hok, htr⟩
  · obtain ⟨hPa, hok2⟩ := okThread_cur_head (okConf_get hok hget) hcur
    refine ⟨?_, ?_, ?_⟩
    · show (execAct c a).greetingButton = false
      rw [gb_execAct]
      exact hgb
    · exact okConf_setThread (okConf_execAct (fun _ => by decide)
        (fun hb => absurd hb (by decide)) hPa hok) hok2
    · show (execAct c a).trace.all cleanEvt = true
      exact trace_execAct hPa htr
  · exact ⟨hgb, okConf_setThread hok
      (okThread_skip (okConf_get hok hget) hblocks), htr⟩
  · exact ⟨hgb, okConf_setThread hok
      (okThread_enter (okConf_get hok hget) hblocks), htr⟩

lemma inv9_stepItem {c : Conf} {it : SchedItem} (h : Inv9 c) :
    Inv9 (stepItem c it) := by
  obtain ⟨hgb, hok, htr⟩ := h
  cases it with
  | run tid => exact inv9_stepThread ⟨hgb, hok, htr⟩
  | engagedHook =>
      refine ⟨hgb, ?_, htr⟩
      show (c.threads ++ [offHookThread]).all (okThread P9) = true
      rw [List.all_append]
      simp only [Bool.and_eq_true]
      exact ⟨hok, by decide⟩
  | engagedGreeting =>
      simp only [stepItem, hgb]
      exact ⟨hgb, hok, htr⟩
  | releasedGreeting =>
      simp only [stepItem, hgb]
      exact ⟨hgb, hok, htr⟩
  | releasedHook =>
      refine ⟨hgb, ?_, htr⟩
      show (c.threads ++ [onHookThread]).all (okThread P9) = true
      rw [List.all_append]
      simp only [Bool.and_eq_true]
      exact ⟨hok, by decide⟩
  | timerFire =>
      rcases ht : c.timer with _ | st
      · simp only [stepItem, ht]
        exact ⟨hgb, hok, htr⟩
      · cases st with
        | armed =>
            refine ⟨?_, ?_, ?_⟩ <;> simp only [stepItem, ht]
            · exact hgb
            · show (c.threads ++ [timeExceededThread]).all (okThread P9) = true
              rw [List.all_append]
              simp only [Bool.and_eq_true]
              exact ⟨hok, by decide⟩
            · exact htr
        | cancelled =>
            simp only [stepItem, ht]
            exact ⟨hgb, hok, htr⟩
        | fired =>
            simp only [stepItem, ht]
            exact ⟨hgb, hok, htr⟩
  | audioComplete =>
      rcases hp : c.audio.playing with _ | s
      · simp only [stepItem, hp]
        exact ⟨hgb, hok, htr⟩
      · refine ⟨?_, ?_, ?_⟩ <;> simp only [stepItem, hp]
        · exact hgb
        · exact hok
        · show (c.trace ++ [Evt.playDone s]).all cleanEvt = true
          rw [List.all_append]
          simp only [Bool.and_eq_true]
          exact ⟨htr, by simp [cleanEvt]⟩

/-! ## Finite-state reachability for an undisturbed NormalCall session
(claims C4 and C5) -/

/-- Scheduler items that neither deliver a GPIO event nor fire the deadline
timer: only running threads and letting playback finish. -/
def workerOnlySched : SchedItem → Bool
  | SchedItem.run _ => true
  | SchedItem.audioComplete => true
  | _ => false

/-- State after `Engaged` (hook) and the complete `off_hook` handler:
the `play_greeting_and_beep` worker is thread 1, untouched. -/
def c4Start : Conf :=
  runSched (initConf 0)
    [SchedItem.engagedHook, SchedItem.run 0, SchedItem.run 0]

/-- Full observable trace of an uncancelled NormalCall session. -/
def c4FullTrace : List Evt :=
  [Evt.playCall Sound.greeting, Evt.playDone Sound.greeting,
   Evt.startRecCall PathKind.recordingsTimestamped,
   Evt.playCall Sound.beep, Evt.playDone Sound.beep]

/-- A schedule driving the worker to completion. -/
def c4SchedFull : List SchedItem :=
  [SchedItem.run 1, SchedItem.run 1, SchedItem.run 1, SchedItem.audioComplete,
   SchedItem.run 1, SchedItem.run 1, SchedItem.run 1, SchedItem.run 1,
   SchedItem.run 1, SchedItem.run 1, SchedItem.audioComplete, SchedItem.run 1]

/-- All configurations reachable from `c4Start` under worker-only
scheduling. -/
def c4States : List Conf :=
  (List.range 13).map (fun n => runSched c4Start (c4SchedFull.take n))

lemma c4_closed : ∀ c ∈ c4States,
    stepItem c SchedItem.audioComplete ∈ c4States ∧
    stepItem c (SchedItem.run 0) ∈ c4States ∧
    stepItem c (SchedItem.run 1) ∈ c4States := by decide

lemma c4_len : ∀ c ∈ c4States, c.threads.length = 2 := by decide

lemma c4_step : ∀ (c : Conf) (it : SchedItem), c ∈ c4States →
    workerOnlySched it = true → stepItem c it ∈ c4States := by
  intro c it hc hit
  cases it with
  | run tid =>
      match tid with
      | 0 => exact (c4_closed c hc).2.1
      | 1 => exact (c4_closed c hc).2.2
      | (n + 2) =>
          show stepThread c (n + 2) ∈ c4States
          rw [stepThread_oob (by rw [c4_len c hc]; omega)]
          exact hc
  | audioComplete => exact (c4_closed c hc).1
  | engagedHook => simp [workerOnlySched] at hit
  | releasedHook => simp [workerOnlySched] at hit
  | engagedGreeting => simp [workerOnlySched] at hit
  | releasedGreeting => simp [workerOnlySched] at hit
  | timerFire => simp [workerOnlySched] at hit

lemma c4_reach (sched : List SchedItem)
    (hs : ∀ it ∈ sched, workerOnlySched it = true) :
    runSched c4Start sched ∈ c4States :=
  runSched_inv (Q := fun c => c ∈ c4States)
    (A := fun it => workerOnlySched it = true) c4_step sched c4Start
    (by decide) hs

/-- States after `Released` took effect before the worker's post-greeting
check (variant a: the greeting had already finished playing naturally). -/
def c5aStart : Conf :=
  runSched (initConf 0)
    [SchedItem.engagedHook, SchedItem.run 0, SchedItem.run 0,
     SchedItem.run 1, SchedItem.run 1, SchedItem.run 1,
     SchedItem.audioComplete, SchedItem.releasedHook,
     SchedItem.run 2, SchedItem.run 2, SchedItem.run 2, SchedItem.run 2]

/-- Variant b: `Released` arrived while the greeting was still playing, so
`stop_playback` cut the greeting short. -/
def c5bStart : Conf :=
  runSched (initConf 0)
    [SchedItem.engagedHook, SchedItem.run 0, SchedItem.run 0,
     SchedItem.run 1, SchedItem.run 1, SchedItem.run 1,
     SchedItem.releasedHook,
     SchedItem.run 2, SchedItem.run 2, SchedItem.run 2, SchedItem.run 2]

/-- A schedule letting the cancelled worker run to its end. -/
def c5Tail : List SchedItem :=
  [SchedItem.run 1, SchedItem.run 1, SchedItem.run 1]

def c5aStates : List Conf :=
  (List.range 4).map (fun n => runSched c5aStart (c5Tail.take n))

def c5bStates : List Conf :=
  (List.range 4).map (fun n => runSched c5bStart (c5Tail.take n))

lemma c5a_closed : ∀ c ∈ c5aStates,
    stepItem c SchedItem.audioComplete ∈ c5aStates ∧
    stepItem c (SchedItem.run 0) ∈ c5aStates ∧
    stepItem c (SchedItem.run 1) ∈ c5aStates ∧
    stepItem c (SchedItem.run 2) ∈ c5aStates := by decide

lemma c5b_closed : ∀ c ∈ c5bStates,
    stepItem c SchedItem.audioComplete ∈ c5bStates ∧
    stepItem c (SchedItem.run 0) ∈ c5bStates ∧
    stepItem c (SchedItem.run 1) ∈ c5bStates ∧
    stepItem c (SchedItem.run 2) ∈ c5bStates := by decide

lemma c5a_len : ∀ c ∈ c5aStates, c.threads.length = 3 := by decide

lemma c5b_len : ∀ c ∈ c5bStates, c.threads.length = 3 := by decide

lemma c5a_step : ∀ (c : Conf) (it : SchedItem), c ∈ c5aStates →
    workerOnlySched it = true → stepItem c it ∈ c5aStates := by
  intro c it hc hit
  cases it with
  | run tid =>
      match tid with
      | 0 => exact (c5a_closed c hc).2.1
      | 1 => exact (c5a_closed c hc).2.2.1
      | 2 => exact (c5a_closed c hc).2.2.2
      | (n + 3) =>
          show stepThread c (n + 3) ∈ c5aStates
          rw [stepThread_oob (by rw [c5a_len c hc]; omega)]
          exact hc
  | audioComplete => exact (c5a_closed c hc).1
  | engagedHook => simp [workerOnlySched] at hit
  | releasedHook => simp [workerOnlySched] at hit
  | engagedGreeting => simp [workerOnlySched] at hit
  | releasedGreeting => simp [workerOnlySched] at hit
  | timerFire => simp [workerOnlySched] at hit

lemma c5b_step : ∀ (c : Conf) (it : SchedItem), c ∈ c5bStates →
    workerOnlySched it = true → stepItem c it ∈ c5bStates := by
  intro c it hc hit
  cases it with
  | run tid =>
      match tid with
      | 0 => exact (c5b_closed c hc).2.1
      | 1 => exact (c5b_closed c hc).2.2.1
      | 2 => exact (c5b_closed c hc).2.2.2
      | (n + 3) =>
          show stepThread c (n + 3) ∈ c5bStates
          rw [stepThread_oob (by rw [c5b_len c hc]; omega)]
          exact hc
  | audioComplete => exact (c5b_closed c hc).1
  | engagedHook => simp [workerOnlySched] at hit
  | releasedHook => simp [workerOnlySched] at hit
  | engagedGreeting => simp [workerOnlySched] at hit
  | releasedGreeting => simp [workerOnlySched] at hit
  | timerFire => simp [workerOnlySched] at hit

lemma c5a_reach (sched : List SchedItem)
    (hs : ∀ it ∈ sched, workerOnlySched it = true) :
    runSched c5aStart sched ∈ c5aStates :=
  runSched_inv (Q := fun c => c ∈ c5aStates)
    (A := fun it => workerOnlySched it = true) c5a_step sched c5aStart
    (by decide) hs

lemma c5b_reach (sched : List SchedItem)
    (hs : ∀ it ∈ sched, workerOnlySched it = true) :
    runSched c5bStart sched ∈ c5bStates :=
  runSched_inv (Q := fun c => c ∈ c5bStates)
    (A := fun it => workerOnlySched it = true) c5b_step sched c5bStart
    (by decide) hs

/-! ## Finalize as a state transformer (claim C7) -/

/-- The whole of `stop_recording_and_playback` (lines 206-216) executed
without interruption, as `on_hook` / `released_record_greeting` run it. -/
def applyFinalize (c : Conf) : Conf :=
  List.foldl execAct c stopRecordingAndPlaybackActs

/-- Effect of `if hasattr(self, "timer"): self.timer.cancel()` on the timer
attribute: only an armed timer changes state. -/
def cancelTimerAttr : Option TimerSt → Option TimerSt
  | some TimerSt.armed => some TimerSt.cancelled
  | t => t

/-- Everything in the configuration except the call log. -/
def coreOf (c : Conf) :
    Bool × Bool × AudioState × Option TimerSt × Option Nat ×
      List Thread × Bool :=
  (c.flag, c.audioFlag, c.audio, c.timer, c.threadRef, c.threads,
   c.greetingButton)

/-- Closed form of one uninterrupted `stop_recording_and_playback` run. -/
lemma applyFinalize_spec (c : Conf) :
    applyFinalize c =
      { c with
        flag := false,
        audio := ⟨if refAlive c then none else c.audio.playing, none⟩,
        timer := cancelTimerAttr c.timer,
        trace := (c.trace ++ [Evt.stopRecCall]) ++
          (if refAlive c then [Evt.stopPlaybackCall] else []) } := by
  obtain ⟨flag, aflag, ⟨pl, rec⟩, timer, ref, thr, gb, tr⟩ := c
  rcases timer with _ | st
  · by_cases hr : aliveRef ref thr = true <;>
      simp [applyFinalize, stopRecordingAndPlaybackActs, List.foldl, execAct,
        refAlive, cancelTimerAttr, hr]
  · cases st <;> by_cases hr : aliveRef ref thr = true <;>
      simp [applyFinalize, stopRecordingAndPlaybackActs, List.foldl, execAct,
        refAlive, cancelTimerAttr, hr]

lemma cancelTimerAttr_idem (t : Option TimerSt) :
    cancelTimerAttr (cancelTimerAttr t) = cancelTimerAttr t := by
  rcases t with _ | st
  · rfl
  · cases st <;> rfl

/-! ## Worker bodies with fallible Audio Service calls (claim C8)

`play_greeting_and_beep` and `beep_and_record_greeting` contain no
`try`/`except`.  Here each is embedded as a function of the flag values it
observes at its three reads of `self.continue_playback` (line 108/118/125,
resp. 187/190/199) and of an oracle saying which Audio Service calls fail.
A raised exception aborts the function at that point: `raised` records the
failing call, `calls` the Audio Service calls made up to and including it,
and `timerArmed` whether `start_recording` had already armed the deadline
timer by then.  Neither function contains any stop or finalize call, so no
`ACall` stop constructor can ever appear. -/

/-- Outcome of one Audio Service primitive call. -/
inductive ARes
  | ok
  | fail
deriving DecidableEq

/-- Modelled from the spec: which `AudioInterface` calls raise (device busy,
file write failure, ...); `audioInterface.py` is not among the sources. -/
structure AudioOracle where
  greetingRes : ARes
  beepRes : ARes
  recRes : ARes
deriving DecidableEq

/-- The call that raised. -/
inductive FailPoint
  | greetingPlay
  | beepPlay
  | recStart
deriving DecidableEq

/-- Audio Service calls a worker body can make. -/
inductive ACall
  | play (s : Sound)
  | startRec (p : PathKind)
deriving DecidableEq

/-- Result of one worker-body execution. -/
structure WorkerRun where
  calls : List ACall
  raised : Option FailPoint
  timerArmed : Bool
  audioFlag : Bool
deriving DecidableEq

/-- `play_greeting_and_beep` (lines 103-131) with fallible audio calls. -/
def play_greeting_and_beep_f (f0 f1 f2 : Bool) (o : AudioOracle) :
    WorkerRun :=
  -- line 108: copy the flag; line 110: play the greeting (may raise)
  if o.greetingRes = ARes.fail then
    ⟨[ACall.play Sound.greeting], some FailPoint.greetingPlay, false, f0⟩
  else if f1 then
    -- lines 118-122: start recording (may raise), then arm the timer
    if o.recRes = ARes.fail then
      ⟨[ACall.play Sound.greeting,
        ACall.startRec PathKind.recordingsTimestamped],
       some FailPoint.recStart, false, f0⟩
    else if f2 then
      -- lines 125-131: play the beep (may raise)
      if o.beepRes = ARes.fail then
        ⟨[ACall.play Sound.greeting,
          ACall.startRec PathKind.recordingsTimestamped,
          ACall.play Sound.beep], some FailPoint.beepPlay, true, f0⟩
      else
        ⟨[ACall.play Sound.greeting,
          ACall.startRec PathKind.recordingsTimestamped,
          ACall.play Sound.beep], none, true, f0⟩
    else
      ⟨[ACall.play Sound.greeting,
        ACall.startRec PathKind.recordingsTimestamped], none, true, f0⟩
  else if f2 then
    if o.beepRes = ARes.fail then
      ⟨[ACall.play Sound.greeting, ACall.play Sound.beep],
       some FailPoint.beepPlay, false, f0⟩
    else
      ⟨[ACall.play Sound.greeting, ACall.play Sound.beep], none, false, f0⟩
  else
    ⟨[ACall.play Sound.greeting], none, false, f0⟩

/-- `beep_and_record_greeting` (lines 182-204) with fallible audio calls. -/
def beep_and_record_greeting_f (f0 f1 f2 : Bool) (o : AudioOracle) :
    WorkerRun :=
  -- line 187: copy the flag; lines 190-196: play the beep (may raise)
  if f1 then
    if o.beepRes = ARes.fail then
      ⟨[ACall.play Sound.beep], some FailPoint.beepPlay, false, f0⟩
    else if f2 then
      -- lines 199-204: start recording over the greeting file (may raise)
      if o.recRes = ARes.fail then
        ⟨[ACall.play Sound.beep, ACall.startRec PathKind.greetingFile],
         some FailPoint.recStart, false, f0⟩
      else
        ⟨[ACall.play Sound.beep, ACall.startRec PathKind.greetingFile],
         none, true, f0⟩
    else
      ⟨[ACall.play Sound.beep], none, false, f0⟩
  else if f2 then
    if o.recRes = ARes.fail then
      ⟨[ACall.startRec PathKind.greetingFile], some FailPoint.recStart,
       false, f0⟩
    else
      ⟨[ACall.startRec PathKind.greetingFile], none, true, f0⟩
  else
    ⟨[], none, false, f0⟩

/-! ## Configuration loading (claim C10) -/

/-- Values a YAML configuration entry can hold (only an integer's equality
with `0` and key presence matter to `__init__`). -/
inductive CfgVal
  | str (v : String)
  | num (v : Nat)
deriving DecidableEq

/-- A parsed YAML mapping. -/
def CfgMap : Type := List (String × CfgVal)

/-- `self.config[k]` lookup (raises `KeyError` when absent: `none`). -/
def cfgLookup (cfg : CfgMap) (k : String) : Option CfgVal :=
  (cfg.find? (fun kv => kv.1 == k)).map (fun kv => kv.2)

/-- The state of the configuration file at `config_path`. -/
inductive FileSt
  | absent
  | unparseable
  | parsed (cfg : CfgMap)

/-- Uncaught Python exceptions escaping `AudioGuestBook.__init__`. -/
inductive PyErr
  | keyError (k : String)
  | yamlError
deriving DecidableEq

/-- How construction of the controller terminates. -/
inductive InitOutcome
  | exited (code : Nat)   -- `sys.exit(code)`
  | raised (e : PyErr)    -- uncaught exception out of the constructor
  | ok                    -- constructor returned
deriving DecidableEq

def isRaised : InitOutcome → Bool
  | InitOutcome.raised _ => true
  | _ => false

/-- Look the keys up in order; the first missing one raises `KeyError`. -/
def needKeys (cfg : CfgMap) : List String → InitOutcome → InitOutcome
  | [], r => r
  | k :: ks, r =>
    match cfgLookup cfg k with
    | none => InitOutcome.raised (PyErr.keyError k)
    | some _ => needKeys cfg ks r

/-- Keys `__init__` reads unconditionally, in evaluation order: the
`AudioInterface` arguments (lines 41-49), then `setup_hook` (lines 72-74),
then `record_greeting_gpio` (line 154). -/
def initKeys : List String :=
  ["alsa_hw_mapping", "format", "file_type", "recording_limit",
   "sample_rate", "channels", "mixer_control_name",
   "hook_gpio", "hook_type", "hook_bounce_time", "record_greeting_gpio"]

/-- Keys read by `setup_record_greeting` only when
`record_greeting_gpio != 0` (lines 158-159). -/
def greetingKeys : List String :=
  ["record_greeting_type", "record_greeting_bounce_time"]

/-- `AudioGuestBook.__init__` (lines 32-52) together with `load_config`
(lines 54-66): a missing file is caught and turned into `sys.exit(1)`;
an unparseable file raises out of `yaml.safe_load` uncaught; a parsed
configuration is only probed by key lookups, each of which may raise
`KeyError`.  `setup_record_greeting` returns early when
`record_greeting_gpio == 0`. -/
def initBook (fs : FileSt) : InitOutcome :=
  match fs with
  | FileSt.absent => InitOutcome.exited 1
  | FileSt.unparseable => InitOutcome.raised PyErr.yamlError
  | FileSt.parsed cfg =>
    needKeys cfg initKeys
      (match cfgLookup cfg "record_greeting_gpio" with
       | none => InitOutcome.raised (PyErr.keyError "record_greeting_gpio")
       | some (CfgVal.num 0) => InitOutcome.ok
       | some _ => needKeys cfg greetingKeys InitOutcome.ok)

/-- `setup_record_greeting` (lines 150-162): with gpio `0` it logs and
returns without registering a button; otherwise it registers the button on
that pin. -/
def setup_record_greeting_btn (record_greeting_gpio : Nat) : Option Nat :=
  if record_greeting_gpio == 0 then none else some record_greeting_gpio

lemma needKeys_ne_exited {cfg : CfgMap} {r : InitOutcome} {n : Nat}
    (hr : r ≠ InitOutcome.exited n) :
    ∀ ks, needKeys cfg ks r ≠ InitOutcome.exited n := by
  intro ks
  induction ks with
  | nil => exact hr
  | cons k ks ih =>
      unfold needKeys
      rcases cfgLookup cfg k with _ | v
      · intro hx
        exact InitOutcome.noConfusion hx
      · exact ih

lemma needKeys_raised_of_raised {cfg : CfgMap} {r : InitOutcome}
    (hr : isRaised r = true) :
    ∀ ks, isRaised (needKeys cfg ks r) = true := by
  intro ks
  induction ks with
  | nil => exact hr
  | cons k ks ih =>
      unfold needKeys
      rcases cfgLookup cfg k with _ | v
      · rfl
      · exact ih

lemma needKeys_raised_of_missing {cfg : CfgMap} {k : String}
    (hk : cfgLookup cfg k = none) :
    ∀ (ks : List String) (r : InitOutcome), k ∈ ks →
      isRaised (needKeys cfg ks r) = true := by
  intro ks
  induction ks with
  | nil => intro r h; exact absurd h (List.not_mem_nil k)
  | cons k0 ks ih =>
      intro r h
      unfold needKeys
      rcases hl : cfgLookup cfg k0 with _ | v
      · rfl
      · rcases List.mem_cons.mp h with h0 | h0
        · rw [h0] at hk
          rw [hk] at hl
          exact Option.noConfusion hl
        · exact ih r h0

/-! ## Claim C1 — one-active-session exclusivity -/

/-- Event sequence: `Engaged` (hook), the `off_hook` handler runs fully,
then `Engaged` again while the first worker has not run at all, and the
second `off_hook` handler runs fully. -/
def c1Sched : List SchedItem :=
  [SchedItem.engagedHook, SchedItem.run 0, SchedItem.run 0,
   SchedItem.engagedHook, SchedItem.run 2, SchedItem.run 2]

/-- C1, counterexample.  The claim says that when `Engaged` arrives while a
previous session's worker has not terminated, the new trigger is rejected or
queued and the existing session is never silently overwritten, so at most
one session is non-terminal at any instant.  On the event sequence
`c1Sched` the code instead leaves TWO worker threads alive at once:
`off_hook` checks nothing, and `self.greeting_thread` (which pointed at the
first, still-alive worker, thread 1) is silently overwritten to point at the
second (thread 3). -/
theorem C1_counterexample :
    ((runSched (initConf 0) c1Sched).threads.filter threadAlive).length = 2 ∧
    (runSched (initConf 0) (c1Sched.take 3)).threadRef = some 1 ∧
    (runSched (initConf 0) c1Sched).threadRef = some 3 ∧
    threadAlive ((runSched (initConf 0) c1Sched).threads.getD 1 ⟨[], []⟩)
      = true := by
  decide

/-- Same shape with the second trigger being the record-greeting button. -/
def c1CrossSched : List SchedItem :=
  [SchedItem.engagedHook, SchedItem.run 0, SchedItem.run 0,
   SchedItem.engagedGreeting, SchedItem.run 2, SchedItem.run 2]

/-- C1, amended: `off_hook` never inspects the active-session slot — on any
configuration an `Engaged` just appends a fresh handler thread — and an
`Engaged` (here from the other trigger) arriving while a previous session's
worker is still alive spawns a second worker and silently overwrites
`self.greeting_thread`, leaving two non-terminal sessions at once. -/
theorem C1_amended :
    (∀ c : Conf, stepItem c SchedItem.engagedHook =
      { c with threads := c.threads ++ [offHookThread] }) ∧
    ((runSched (initConf 3) c1CrossSched).threads.filter threadAlive).length
      = 2 ∧
    (runSched (initConf 3) c1CrossSched).threadRef = some 3 ∧
    threadAlive ((runSched (initConf 3) c1CrossSched).threads.getD 1 ⟨[], []⟩)
      = true := by
  exact ⟨fun c => rfl, by decide, by decide, by decide⟩

/-! ## Claim C2 — deadline fire vs Released -/

/-- A NormalCall session records, its deadline timer fires and
`time_exceeded` stops the recording and starts the notice; then `Released`
arrives and `on_hook` runs `stop_recording_and_playback` fully. -/
def c2Sched : List SchedItem :=
  [SchedItem.engagedHook, SchedItem.run 0, SchedItem.run 0,
   SchedItem.run 1, SchedItem.run 1, SchedItem.run 1, SchedItem.audioComplete,
   SchedItem.run 1, SchedItem.run 1, SchedItem.run 1, SchedItem.run 1,
   SchedItem.timerFire, SchedItem.run 2, SchedItem.run 2,
   SchedItem.releasedHook,
   SchedItem.run 3, SchedItem.run 3, SchedItem.run 3, SchedItem.run 3]

/-- C2, counterexample.  The claim says that when the deadline fires and
`Released` also arrives, `stopRecording` is invoked exactly once.  On
`c2Sched` (timer fires, then `Released`) the Audio Service receives TWO
`stop_recording` calls: there is no finalize-once guard, so both
`time_exceeded` and `stop_recording_and_playback` run their stop logic. -/
theorem C2_counterexample :
    ¬ ((runSched (initConf 0) c2Sched).trace.count Evt.stopRecCall = 1) := by
  decide

/-- C2, amended: each of the two finalize paths contains exactly one
`stop_recording` call and neither checks whether the other already ran, so
when the timer fires and `Released` follows, `stop_recording` is invoked
once per path (twice in total) — the second call finding the capture already
stopped — while the deadline notice is played exactly once (only
`time_exceeded` plays it). -/
theorem C2_amended :
    timeExceededActs.count PAct.callStopRec = 1 ∧
    stopRecordingAndPlaybackActs.count PAct.callStopRec = 1 ∧
    (runSched (initConf 0) c2Sched).trace.count Evt.stopRecCall = 2 ∧
    (runSched (initConf 0) c2Sched).trace.count
      (Evt.playCall Sound.timeExceeded) = 1 ∧
    (runSched (initConf 0) (c2Sched.take 16)).audio.recording = none := by
  decide

/-! ## Claim C3 — what the deadline handler does -/

/-- The deadline fires mid-session and `time_exceeded` runs to completion
(recording stopped, notice played to its end); the worker has not yet
reached its beep block. -/
def c3MidSched : List SchedItem :=
  [SchedItem.engagedHook, SchedItem.run 0, SchedItem.run 0,
   SchedItem.run 1, SchedItem.run 1, SchedItem.run 1, SchedItem.audioComplete,
   SchedItem.run 1, SchedItem.run 1, SchedItem.run 1, SchedItem.run 1,
   SchedItem.timerFire, SchedItem.run 2, SchedItem.run 2,
   SchedItem.audioComplete, SchedItem.run 2]

/-- After the handler finished, the worker takes its next two steps. -/
def c3Sched : List SchedItem :=
  c3MidSched ++ [SchedItem.run 1, SchedItem.run 1]

/-- C3, counterexample.  The claim says the deadline handler sets the
session's cancel flag and moves the session to Finalizing, so no later
worker step can observe the cancel flag as unset.  On `c3MidSched` the
`time_exceeded` thread (thread 2) has fully terminated, yet
`continue_playback` is still `True` (the cancel flag is NOT set), and on the
two following worker steps the worker's guard reads it as uncancelled and
plays the beep. -/
theorem C3_counterexample :
    (runSched (initConf 0) c3MidSched).threads.getD 2 ⟨[], []⟩ = ⟨[], []⟩ ∧
    ¬ ((runSched (initConf 0) c3MidSched).flag = false) ∧
    (runSched (initConf 0) c3Sched).trace.count (Evt.playCall Sound.beep)
      = 1 := by
  decide

/-- `time_exceeded` (lines 140-148) run without interruption. -/
def timeExceededBody (c : Conf) : Conf := List.foldl execAct c timeExceededActs

/-- C3, amended: `time_exceeded` stops the capture and plays the
time-exceeded notice, but it neither touches `continue_playback` nor the
timer attribute nor the thread pool — it performs no Finalizing transition —
so a later worker step can still observe the cancel flag unset: after the
handler completes, the flag is still `True`, the timer attribute records a
fired (not cancelled) timer, and the worker goes on to play the beep after
the notice. -/
theorem C3_amended :
    (∀ c : Conf, (timeExceededBody c).flag = c.flag ∧
       (timeExceededBody c).timer = c.timer ∧
       (timeExceededBody c).threads = c.threads ∧
       (timeExceededBody c).audio.recording = none ∧
       (timeExceededBody c).trace =
         c.trace ++ [Evt.stopRecCall, Evt.playCall Sound.timeExceeded]) ∧
    (runSched (initConf 0) c3Sched).flag = true ∧
    (runSched (initConf 0) c3Sched).timer = some TimerSt.fired ∧
    (runSched (initConf 0) c3Sched).trace =
      [Evt.playCall Sound.greeting, Evt.playDone Sound.greeting,
       Evt.startRecCall PathKind.recordingsTimestamped, Evt.stopRecCall,
       Evt.playCall Sound.timeExceeded, Evt.playDone Sound.timeExceeded,
       Evt.playCall Sound.beep] := by
  refine ⟨fun c => ?_, by decide, by decide, by decide⟩
  simp [timeExceededBody, timeExceededActs, execAct]

/-! ## Claim C4 — NormalCall call order -/

/-- A NormalCall session in which the cancel flag is never cleared, but the
deadline timer (armed by `start_recording`) fires between the start of the
recording and the beep, and `time_exceeded` gets to its first statement. -/
def c4RaceSched : List SchedItem :=
  [SchedItem.engagedHook, SchedItem.run 0, SchedItem.run 0,
   SchedItem.run 1, SchedItem.run 1, SchedItem.run 1, SchedItem.audioComplete,
   SchedItem.run 1, SchedItem.run 1, SchedItem.run 1, SchedItem.run 1,
   SchedItem.timerFire, SchedItem.run 2, SchedItem.run 1, SchedItem.run 1]

/-- C4, counterexample.  The claim quantifies over every NormalCall session
in which the cancel flag is never set and asserts the call order
`playAudio(greeting)`, `startRecording`, `playAudio(beep)` with
`stopRecording` only afterwards.  On `c4RaceSched` the flag stays `True`
from the session's start through the whole run (the timer's `time_exceeded`
never touches it), yet `stopRecording` is called BEFORE `playAudio(beep)`:
the deadline path does not count as cancellation in this code. -/
theorem C4_counterexample :
    (∀ n ∈ List.range 14,
       (runSched (initConf 0) (c4RaceSched.take (n + 2))).flag = true) ∧
    (runSched (initConf 0) c4RaceSched).trace =
      [Evt.playCall Sound.greeting, Evt.playDone Sound.greeting,
       Evt.startRecCall PathKind.recordingsTimestamped, Evt.stopRecCall,
       Evt.playCall Sound.beep] := by
  decide

/-- C4, amended: for a NormalCall session in which the cancel flag is never
set AND the deadline timer does not fire before the worker finishes (no
`Released`, no other `Engaged`, no timer expiry — only the worker runs and
playbacks complete), the observable behaviour is exactly the claimed order:
every reachable trace is a step of `playAudio(greeting)` to completion, then
`startRecording`, then `playAudio(beep)` to completion, `stopRecording` is
never called during the session, and when the worker has terminated the
trace is exactly that full sequence. -/
theorem C4_amended (sched : List SchedItem)
    (hs : ∀ it ∈ sched, workerOnlySched it = true) :
    (runSched c4Start sched).trace ∈
      [c4FullTrace.take 0, c4FullTrace.take 1, c4FullTrace.take 2,
       c4FullTrace.take 3, c4FullTrace.take 4, c4FullTrace] ∧
    Evt.stopRecCall ∉ (runSched c4Start sched).trace ∧
    ((runSched c4Start sched).threads.getD 1 ⟨[], []⟩ = ⟨[], []⟩ →
      (runSched c4Start sched).trace = c4FullTrace) := by
  have key : ∀ x ∈ c4States,
      x.trace ∈ [c4FullTrace.take 0, c4FullTrace.take 1, c4FullTrace.take 2,
        c4FullTrace.take 3, c4FullTrace.take 4, c4FullTrace] ∧
      Evt.stopRecCall ∉ x.trace ∧
      (x.threads.getD 1 ⟨[], []⟩ = ⟨[], []⟩ → x.trace = c4FullTrace) := by
    decide
  exact key _ (c4_reach sched hs)

/-- C4 witness: the schedule `c4SchedFull` drives the session to completion
and produces exactly the full greeting–record–beep trace. -/
theorem C4_amended_witness :
    (runSched c4Start c4SchedFull).trace = c4FullTrace :=
  (C4_amended c4SchedFull (by decide)).2.2 (by decide)

/-! ## Claim C5 — early cancel -/

/-- The session state just before `Released` in variant a: handler done,
greeting played to natural completion, worker paused at the blocking return
of `play_audio`. -/
def c5aPre : Conf :=
  runSched (initConf 0)
    [SchedItem.engagedHook, SchedItem.run 0, SchedItem.run 0,
     SchedItem.run 1, SchedItem.run 1, SchedItem.run 1,
     SchedItem.audioComplete]

/-- C5: if `Released` takes effect (the full `on_hook` finalize has run and
cleared `continue_playback`) before the worker's post-greeting check, then
under any further worker-only scheduling the worker runs on without ever
calling `startRecording` or playing the beep — the call log never grows
beyond what the finalize left (shown for both variant a, greeting finished
naturally, and variant b, greeting cut short by `stop_playback`) — and in
variant a the finalize's `stop_recording`/`stop_playback` calls were safe
no-ops: the audio state was already idle before `Released` and is unchanged
after the finalize.  The last conjunct shows the worker indeed reaches its
end (three more steps skip both guarded blocks). -/
theorem C5_early_cancel (sched : List SchedItem)
    (hs : ∀ it ∈ sched, workerOnlySched it = true) :
    ((runSched c5aStart sched).trace = c5aStart.trace ∧
     (runSched c5aStart sched).flag = false) ∧
    ((runSched c5bStart sched).trace = c5bStart.trace ∧
     (runSched c5bStart sched).flag = false) ∧
    c5aStart.trace = [Evt.playCall Sound.greeting, Evt.playDone Sound.greeting,
      Evt.stopRecCall, Evt.stopPlaybackCall] ∧
    c5bStart.trace = [Evt.playCall Sound.greeting, Evt.stopRecCall,
      Evt.stopPlaybackCall] ∧
    c5aPre.audio = ⟨none, none⟩ ∧
    c5aStart.audio = ⟨none, none⟩ ∧
    (runSched c5aStart c5Tail).threads.getD 1 ⟨[], []⟩ = ⟨[], []⟩ := by
  have keyA : ∀ x ∈ c5aStates,
      x.trace = c5aStart.trace ∧ x.flag = false := by decide
  have keyB : ∀ x ∈ c5bStates,
      x.trace = c5bStart.trace ∧ x.flag = false := by decide
  exact ⟨keyA _ (c5a_reach sched hs), keyB _ (c5b_reach sched hs),
    by decide, by decide, by decide, by decide, by decide⟩

/-- C5 witness: under the concrete schedule `c5Tail` the cancelled worker
makes no further Audio Service call in either variant. -/
theorem C5_early_cancel_witness :
    (runSched c5aStart c5Tail).trace = c5aStart.trace ∧
    (runSched c5bStart c5Tail).trace = c5bStart.trace :=
  ⟨((C5_early_cancel c5Tail (by decide)).1).1,
   ((C5_early_cancel c5Tail (by decide)).2.1).1⟩

/-! ## Claim C6 — cancel-flag monotonicity -/

/-- `Engaged` (hook), handler runs, `Released` clears the flag (the cancel
flag becomes set) while the worker, thread 1, has not yet run. -/
def c6Pre : List SchedItem :=
  [SchedItem.engagedHook, SchedItem.run 0, SchedItem.run 0,
   SchedItem.releasedHook, SchedItem.run 2]

/-- ... then the record-greeting trigger's `Engaged` handler runs its first
statement: `self.continue_playback = True`. -/
def c6Sched : List SchedItem :=
  c6Pre ++ [SchedItem.engagedGreeting, SchedItem.run 3]

/-- C6, counterexample.  The claim says the cancel flag (the negation of
`continue_playback`) moves only from false to true within a session and is
never reset while the session's worker task is still running.  On `c6Sched`
the flag is cancelled (`continue_playback = False`) with worker thread 1
alive, and then `pressed_record_greeting` unconditionally resets
`continue_playback = True` while that same worker is STILL alive: the cancel
flag goes back to unset mid-session. -/
theorem C6_counterexample :
    (runSched (initConf 5) c6Pre).flag = false ∧
    threadAlive ((runSched (initConf 5) c6Pre).threads.getD 1 ⟨[], []⟩)
      = true ∧
    (runSched (initConf 5) c6Sched).flag = true ∧
    threadAlive ((runSched (initConf 5) c6Sched).threads.getD 1 ⟨[], []⟩)
      = true := by
  decide

/-- C6, amended: the cancel flag is monotonic only in the absence of further
`Engaged` deliveries — `off_hook` and `pressed_record_greeting` are the only
statements assigning `continue_playback = True`, and they do so
unconditionally.  Formally: from any configuration whose flag is cleared and
in which no live thread still has a pending `continue_playback = True`
assignment, any schedule that delivers no `Engaged` event (of either
trigger) keeps the flag cleared forever: `Released`, timer expiry, playback
completion and every thread step preserve it. -/
theorem C6_amended (c : Conf) (sched : List SchedItem)
    (hf : c.flag = false) (hok : okConf P6 c = true)
    (hs : ∀ it ∈ sched,
      it ≠ SchedItem.engagedHook ∧ it ≠ SchedItem.engagedGreeting) :
    (runSched c sched).flag = false :=
  (runSched_inv (Q := Inv6)
    (A := fun it =>
      it ≠ SchedItem.engagedHook ∧ it ≠ SchedItem.engagedGreeting)
    (fun _ _ hq ha => inv6_stepItem hq ha.1 ha.2) sched c ⟨hf, hok⟩ hs).1

/-- C6 witness: from the freshly constructed controller (flag `False`), a
release, a thread step, a timer tick and a playback completion leave the
flag `False`. -/
theorem C6_amended_witness :
    (runSched (initConf 0)
      [SchedItem.releasedHook, SchedItem.run 0, SchedItem.timerFire,
       SchedItem.audioComplete]).flag = false :=
  C6_amended (initConf 0) _ rfl (by decide) (by decide)

/-! ## Claim C7 — idempotent finalize -/

/-- C7: `stop_recording_and_playback` is idempotent on the controller state.
Running it twice in a row (two consecutive `Released` deliveries with
nothing in between) leaves exactly the state one run leaves — flag, audio
interface state, timer attribute, thread pool and `greeting_thread`
reference all agree (`coreOf` is everything but the call log; the second run
does re-issue `stop_recording`, which finds nothing to stop).  And a
`Released` arriving before any session has ever existed is a no-op that does
not raise: both `hasattr` guards fail, so on the freshly constructed
controller the whole handler reduces to one idle `stop_recording` call and
changes nothing. -/
theorem C7_finalize_idempotent :
    (∀ c : Conf,
       coreOf (applyFinalize (applyFinalize c)) = coreOf (applyFinalize c)) ∧
    applyFinalize (initConf 0) = { initConf 0 with trace := [Evt.stopRecCall] }
    := by
  constructor
  · intro c
    have h1 := applyFinalize_spec c
    have hra : refAlive (applyFinalize c) = refAlive c := by
      rw [h1]
      rfl
    rw [applyFinalize_spec (applyFinalize c), hra, h1]
    simp [coreOf, cancelTimerAttr_idem]
    by_cases hr : refAlive c = true <;> simp [hr]
  · decide

/-! ## Claim C8 — Audio Service failure mid-session -/

/-- C8, counterexample.  The claim says a failing Audio Service call must
not crash the controller: the session should transition to Finalizing as if
cancelled and the failure be logged.  But the worker bodies contain no
`try`/`except`: when `play_audio(greeting)` raises, the worker aborts right
there — the exception propagates out of `play_greeting_and_beep` uncaught
(`raised` is set), the only call made is the failed greeting play, and no
stop, cleanup or logging statement runs afterwards. -/
theorem C8_counterexample :
    (play_greeting_and_beep_f true true true
      ⟨ARes.fail, ARes.ok, ARes.ok⟩).raised = some FailPoint.greetingPlay ∧
    (play_greeting_and_beep_f true true true
      ⟨ARes.fail, ARes.ok, ARes.ok⟩).calls = [ACall.play Sound.greeting] := by
  decide

/-- C8, amended: whichever Audio Service call fails, the exception
propagates uncaught out of the worker body at that point: the worker makes
no further Audio Service calls, performs no finalize step (the worker bodies
contain no stop call at all), and — when `start_recording` had already armed
the deadline timer before the beep failed — leaves that timer armed.  The
process itself survives only because the exception dies with the worker
thread; nothing transitions the session to Finalizing. -/
theorem C8_amended :
    (∀ (f0 f1 f2 : Bool) (o : AudioOracle), o.greetingRes = ARes.fail →
       play_greeting_and_beep_f f0 f1 f2 o =
         ⟨[ACall.play Sound.greeting], some FailPoint.greetingPlay,
          false, f0⟩) ∧
    (∀ (f0 f2 : Bool) (o : AudioOracle), o.greetingRes = ARes.ok →
       o.recRes = ARes.fail →
       play_greeting_and_beep_f f0 true f2 o =
         ⟨[ACall.play Sound.greeting,
           ACall.startRec PathKind.recordingsTimestamped],
          some FailPoint.recStart, false, f0⟩) ∧
    (∀ (f0 : Bool) (o : AudioOracle), o.greetingRes = ARes.ok →
       o.recRes = ARes.ok → o.beepRes = ARes.fail →
       play_greeting_and_beep_f f0 true true o =
         ⟨[ACall.play Sound.greeting,
           ACall.startRec PathKind.recordingsTimestamped,
           ACall.play Sound.beep], some FailPoint.beepPlay, true, f0⟩) ∧
    (∀ (f0 f2 : Bool) (o : AudioOracle), o.beepRes = ARes.fail →
       beep_and_record_greeting_f f0 true f2 o =
         ⟨[ACall.play Sound.beep], some FailPoint.beepPlay, false, f0⟩) ∧
    (∀ (f0 : Bool) (o : AudioOracle), o.beepRes = ARes.ok →
       o.recRes = ARes.fail →
       beep_and_record_greeting_f f0 true true o =
         ⟨[ACall.play Sound.beep, ACall.startRec PathKind.greetingFile],
          some FailPoint.recStart, false, f0⟩) := by
  refine ⟨?_, ?_, ?_, ?_, ?_⟩
  · intro f0 f1 f2 o h
    obtain ⟨g, b, rc⟩ := o
    cases h
    simp [play_greeting_and_beep_f]
  · intro f0 f2 o h1 h2
    obtain ⟨g, b, rc⟩ := o
    cases h1
    cases h2
    simp [play_greeting_and_beep_f]
  · intro f0 o h1 h2 h3
    obtain ⟨g, b, rc⟩ := o
    cases h1
    cases h2
    cases h3
    simp [play_greeting_and_beep_f]
  · intro f0 f2 o h
    obtain ⟨g, b, rc⟩ := o
    cases h
    simp [beep_and_record_greeting_f]
  · intro f0 o h1 h2
    obtain ⟨g, b, rc⟩ := o
    cases h1
    cases h2
    simp [beep_and_record_greeting_f]

/-- C8 witness: a failing beep after a successful `start_recording` aborts
the worker with the timer left armed. -/
theorem C8_amended_witness :
    play_greeting_and_beep_f true true true ⟨ARes.ok, ARes.fail, ARes.ok⟩ =
      ⟨[ACall.play Sound.greeting,
        ACall.startRec PathKind.recordingsTimestamped,
        ACall.play Sound.beep], some FailPoint.beepPlay, true, true⟩ :=
  C8_amended.2.2.1 true ⟨ARes.ok, ARes.fail, ARes.ok⟩ rfl rfl rfl

/-! ## Claim C9 — record_greeting_gpio = 0 disables the greeting trigger -/

/-- C9: with `record_greeting_gpio = 0`, `setup_record_greeting` registers
no button, and in the transition system no schedule whatsoever can ever
spawn the greeting worker or record over the greeting file (`okConf P9`
says no live thread can do so, `cleanEvt` that no such recording was ever
started), while both greeting-button events are dead (`greetingButton`
stays `false`).  For any non-zero gpio the button is registered, its
`Engaged` adds the `pressed_record_greeting` handler operating on the very
same state (same flag, same audio interface), and the hook trigger's
events are independent of the greeting button entirely. -/
theorem C9_record_greeting_gpio_zero :
    setup_record_greeting_btn 0 = none ∧
    (∀ g : Nat, g ≠ 0 → (setup_record_greeting_btn g).isSome = true) ∧
    (∀ sched : List SchedItem,
       okConf P9 (runSched (initConf 0) sched) = true ∧
       (runSched (initConf 0) sched).trace.all cleanEvt = true ∧
       (runSched (initConf 0) sched).greetingButton = false) ∧
    (∀ c : Conf, c.greetingButton = true →
       stepItem c SchedItem.engagedGreeting =
         { c with threads := c.threads ++ [pressedRecordGreetingThread] }) ∧
    (initConf 3).greetingButton = true ∧
    (∀ (c : Conf) (b : Bool),
       stepItem { c with greetingButton := b } SchedItem.engagedHook =
         { stepItem c SchedItem.engagedHook with greetingButton := b } ∧
       stepItem { c with greetingButton := b } SchedItem.releasedHook =
         { stepItem c SchedItem.releasedHook with greetingButton := b }) := by
  refine ⟨rfl, ?_, ?_, ?_, by decide, ?_⟩
  · intro g hg
    simp [setup_record_greeting_btn, hg]
  · intro sched
    have h := runSched_inv (Q := Inv9) (A := fun _ => True)
      (fun _ _ hq _ => inv9_stepItem hq) sched (initConf 0)
      ⟨rfl, rfl, rfl⟩ (fun _ _ => trivial)
    exact ⟨h.2.1, h.2.2, h.1⟩
  · intro c hb
    simp [stepItem, hb]
  · intro c b
    exact ⟨rfl, rfl⟩

/-- C9 witness: pin 17 registers the greeting button. -/
theorem C9_witness :
    (setup_record_greeting_btn 17).isSome = true :=
  C9_record_greeting_gpio_zero.2.1 17 (by decide)

/-! ## Claim C10 — constructor error behaviour -/

lemma initBook_parsed_ne_exited (cfg : CfgMap) (n : Nat) :
    initBook (FileSt.parsed cfg) ≠ InitOutcome.exited n := by
  unfold initBook
  apply needKeys_ne_exited
  rcases h : cfgLookup cfg "record_greeting_gpio" with _ | v
  · intro hx
    exact InitOutcome.noConfusion hx
  · rcases v with s | m
    · apply needKeys_ne_exited
      intro hx
      exact InitOutcome.noConfusion hx
    · cases m with
      | zero =>
          intro hx
          exact InitOutcome.noConfusion hx
      | succ m =>
          apply needKeys_ne_exited
          intro hx
          exact InitOutcome.noConfusion hx

/-- C10: constructing the controller exits with code 1 exactly when the
configuration file is absent (`load_config` catches only
`FileNotFoundError` and calls `sys.exit(1)`); a present but unparseable
file raises the YAML error uncaught out of the constructor; and a parsed
configuration missing any of the unconditionally read keys raises (a
`KeyError`) out of the constructor — never an exit — before any session
logic runs. -/
theorem C10_config_errors :
    (∀ fs : FileSt, initBook fs = InitOutcome.exited 1 ↔ fs = FileSt.absent) ∧
    initBook FileSt.unparseable = InitOutcome.raised PyErr.yamlError ∧
    (∀ (cfg : CfgMap) (k : String), k ∈ initKeys → cfgLookup cfg k = none →
       isRaised (initBook (FileSt.parsed cfg)) = true) := by
  refine ⟨?_, rfl, ?_⟩
  · intro fs
    constructor
    · intro h
      cases fs with
      | absent => rfl
      | unparseable => exact InitOutcome.noConfusion h
      | parsed cfg => exact absurd h (initBook_parsed_ne_exited cfg 1)
    · intro h
      rw [h]
      rfl
  · intro cfg k hk hnone
    unfold initBook
    exact needKeys_raised_of_missing hnone initKeys _ hk

/-- C10 witness: the empty configuration raises (its first lookup fails). -/
theorem C10_witness :
    isRaised (initBook (FileSt.parsed [])) = true :=
  C10_config_errors.2.2 [] "format" (by decide) rfl
